import Mathlib

/-!
Shallow embedding of `corr_net/datasets/kinetics.py` (the `Kinetics` video
dataset loader) and proofs about its manifest loader, sampling-parameter
resolver, and decode-retry engine.

External collaborators (the frame/video decoder, the container opener, the
filesystem `glob`, the random source, and `utils.get_random_sampling_rate`)
are out of scope per the specification and are modelled as oracles collected
in a `World` structure.  Tensors are modelled at the shape level.
-/

set_option autoImplicit false
set_option linter.unusedVariables false

/-- Dataset split mode: `"train"`, `"val"`, or `"test"` (the constructor
asserts that no other mode string is supplied). -/
inductive Mode where
  | train
  | val
  | test
deriving DecidableEq, Repr

/-- Python `int(s)` on a decimal string literal: an optional `-` sign followed
by at least one digit; any other shape raises `ValueError` (modelled as
`none`). -/
def pyDigits : List Char → Option ℕ
  | [] => none
  | cs => cs.foldl (fun acc c => match acc with
      | none => none
      | some n => if c.isDigit then some (n * 10 + (c.toNat - 48)) else none)
      (some 0)

/-- Python `int(s)` for a (possibly negatively signed) decimal string. -/
def pyInt? (s : String) : Option ℤ :=
  match s.data with
  | '-' :: rest => (pyDigits rest).map (fun n => -(n : ℤ))
  | cs => (pyDigits cs).map (fun n => (n : ℤ))

/-- Python `os.path.join(a, b)` for the relative paths this loader builds:
concatenation with a `/` separator (empty left component yields `b`). -/
def os_path_join (a b : String) : String :=
  if a = "" then b else a ++ "/" ++ b

/-- Python `random.randint(a, b)`: a uniform draw from the inclusive range
`[a, b]`, driven by the oracle value `o` (every residue of `o` modulo the
range size is reachable, so a uniform oracle yields a uniform draw). -/
def pyRandint (a b o : ℕ) : ℕ :=
  a + o % (b + 1 - a)

/-- Python `round` to the nearest integer, with halves rounded to the nearest
even integer (bankers rounding). -/
def pyRound (q : ℚ) : ℤ :=
  let n := ⌊q⌋
  let frac := q - n
  if frac < 1/2 then n
  else if 1/2 < frac then n + 1
  else if n % 2 = 0 then n else n + 1

/-- Auto-numbered `str.format`: succeeds exactly when at least as many
positional arguments as replacement fields are supplied; with fewer
arguments Python raises `IndexError`. -/
def pyFormatOk (numFields numArgs : ℕ) : Bool :=
  numFields ≤ numArgs

/-- The configuration fields of `cfg` that `kinetics.py` reads and that the
claims depend on.  Float-valued configuration entries are modelled as
rationals.  Fields consumed only by the external decoder/container oracles
(e.g. `TARGET_FPS`, `DECODING_BACKEND`, `MEAN`, `STD`) are absorbed into the
oracle `World` and omitted here. -/
structure Cfg where
  /-- `cfg.DATA.USE_FRAME_SEQUENCES`. -/
  USE_FRAME_SEQUENCES : Bool
  /-- `cfg.DATA.PATH_PREFIX`: the root joined in front of every clip path. -/
  PATH_ROOT : String
  /-- `cfg.DATA.TRAIN_JITTER_SCALES` (a two-element list). -/
  TRAIN_JITTER_SCALES : ℤ × ℤ
  /-- `cfg.DATA.TRAIN_CROP_SIZE`. -/
  TRAIN_CROP_SIZE : ℤ
  /-- `cfg.DATA.TEST_CROP_SIZE`. -/
  TEST_CROP_SIZE : ℤ
  /-- `cfg.TEST.NUM_SPATIAL_CROPS`. -/
  NUM_SPATIAL_CROPS : ℕ
  /-- `cfg.MULTIGRID.SHORT_CYCLE_FACTORS` (a two-element list of floats). -/
  SHORT_CYCLE_FACTORS : ℚ × ℚ
  /-- `cfg.MULTIGRID.DEFAULT_S`. -/
  DEFAULT_S : ℤ
  /-- `cfg.DATA.NUM_FRAMES`: the frame count requested from the decoder. -/
  NUM_FRAMES : ℤ
  /-- Modelled from the spec: the number of pathway tensors the configuration
  requests from pathway packing (spec §4.4, "per configuration"). -/
  numPathways : ℕ
deriving DecidableEq, Repr

/-- One `self._video_meta[i]` dictionary: empty for raw videos, and holding
the manifest-declared `num_frames` for frame sequences. -/
structure VideoMeta where
  num_frames : Option ℤ
deriving DecidableEq, Repr

/-- A manifest line parsed into the values `_construct_loader` extracts from
it before replication. -/
structure ParsedLine where
  path : String
  label : ℤ
  num_frames : Option ℤ
deriving DecidableEq, Repr

/-- The ways `_construct_loader` fails. -/
inductive LoadError where
  /-- A manifest line failed to unpack or to parse as an integer
  (Python `ValueError`). -/
  | valueError
  /-- `assert len(self._path_to_videos) > 0` failed. -/
  | emptySplit
deriving DecidableEq, Repr

/-- Parse one manifest line, given as the list of separator-split fields the
corresponding Python `str.split(self.cfg.DATA.PATH_LABEL_SEPARATOR)` call
produces.  Frame-sequence lines carry five fields and rebuild the clip path
under `BharatDSL_dataset/`; video lines carry two. -/
def parseLine (cfg : Cfg) (fields : List String) : Except LoadError ParsedLine :=
  if cfg.USE_FRAME_SEQUENCES then
    match fields with
    | [set_name, class_name, class_sample, num_frames, label] =>
      match pyInt? num_frames, pyInt? label with
      | some nf, some l =>
        .ok ⟨os_path_join (os_path_join (os_path_join "BharatDSL_dataset" set_name)
              class_name) class_sample, l, some nf⟩
      | _, _ => .error .valueError
    | _ => .error .valueError
  else
    match fields with
    | [path, label] =>
      match pyInt? label with
      | some l => .ok ⟨path, l, none⟩
      | none => .error .valueError
    | _ => .error .valueError

/-- `self._num_clips`: one clip replica per video in every supported mode
(`__init__`, lines 77–82; the test-mode ensemble branch is commented out). -/
def numClips (mode : Mode) : ℕ :=
  match mode with
  | .train | .val | .test => 1

/-- The four parallel sequences `_construct_loader` builds:
`_path_to_videos`, `_labels`, `_spatial_temporal_idx`, and `_video_meta`
(the latter keyed by the consecutive integers `clip_idx * num_clips + idx`,
hence positional). -/
structure LoaderState where
  paths : List String
  labels : List ℤ
  stIdx : List ℕ
  meta : List VideoMeta
deriving DecidableEq, Repr

/-- The inner `for idx in range(self._num_clips)` loop body of
`_construct_loader` for one parsed manifest line: append the prefixed path,
the label, the replica index, and the metadata dictionary, `nc` times. -/
def addLine (cfg : Cfg) (nc : ℕ) (st : LoaderState) (p : ParsedLine) : LoaderState where
  paths := st.paths ++ List.replicate nc (os_path_join cfg.PATH_ROOT p.path)
  labels := st.labels ++ List.replicate nc p.label
  stIdx := st.stIdx ++ List.range nc
  meta := st.meta ++ List.replicate nc ⟨p.num_frames⟩

/-- The outer `for clip_idx, path_label in enumerate(...)` loop of
`_construct_loader`: parse each line and append its replicas; a parse
failure propagates (Python raises `ValueError`). -/
def loadLines (cfg : Cfg) (nc : ℕ) : List (List String) → LoaderState → Except LoadError LoaderState
  | [], st => .ok st
  | line :: rest, st =>
    match parseLine cfg line with
    | .error e => .error e
    | .ok p => loadLines cfg nc rest (addLine cfg nc st p)

/-- The `Kinetics` dataset object after construction. -/
structure Kinetics where
  mode : Mode
  cfg : Cfg
  num_retries : ℕ
  path_to_videos : List String
  labels : List ℤ
  spatial_temporal_idx : List ℕ
  video_meta : List VideoMeta
deriving DecidableEq, Repr

/-- `Kinetics.__init__` together with `_construct_loader`, applied to the
manifest non-empty lines (each given as its separator-split field
list): build the four parallel sequences and assert the split is non-empty. -/
def Kinetics.init (cfg : Cfg) (mode : Mode) (num_retries : ℕ)
    (manifest : List (List String)) : Except LoadError Kinetics :=
  match loadLines cfg (numClips mode) manifest ⟨[], [], [], []⟩ with
  | .error e => .error e
  | .ok st =>
    if 0 < st.paths.length then
      .ok ⟨mode, cfg, num_retries, st.paths, st.labels, st.stIdx, st.meta⟩
    else
      .error .emptySplit

/-- `Kinetics.__len__`: the number of entries of `self._path_to_videos`. -/
def Kinetics.len (ds : Kinetics) : ℕ :=
  ds.path_to_videos.length

/-- The sampling parameters `__getitem__` resolves before entering the retry
loop (`-1` means "choose randomly at decode/transform time"). -/
structure SamplingParams where
  temporal : ℤ
  spatial : ℤ
  minScale : ℤ
  maxScale : ℤ
  cropSize : ℤ
deriving DecidableEq, Repr

/-- The sampling-parameter resolution of `__getitem__` (lines 166–218):
train/val use random indices with multigrid short-cycle adjustments; test
derives deterministic indices from `_spatial_temporal_idx[index]` and checks
the `assert len({min_scale, max_scale}) == 1` invariant. -/
def resolveParams (cfg : Cfg) (mode : Mode) (stIdx : ℕ) (short_cycle_idx : Option ℕ) :
    Except String SamplingParams :=
  match mode with
  | .train | .val =>
    let min0 : ℤ := cfg.TRAIN_JITTER_SCALES.1
    let max0 : ℤ := cfg.TRAIN_JITTER_SCALES.2
    let crop0 : ℤ := cfg.TRAIN_CROP_SIZE
    let crop1 : ℤ :=
      match short_cycle_idx with
      | some 0 => pyRound (cfg.SHORT_CYCLE_FACTORS.1 * (cfg.DEFAULT_S : ℚ))
      | some 1 => pyRound (cfg.SHORT_CYCLE_FACTORS.2 * (cfg.DEFAULT_S : ℚ))
      | _ => crop0
    let min1 : ℤ :=
      if 0 < cfg.DEFAULT_S then
        pyRound ((min0 : ℚ) * (crop1 : ℚ) / (cfg.DEFAULT_S : ℚ))
      else min0
    .ok ⟨-1, -1, min1, max0, crop1⟩
  | .test =>
    let temporal : ℤ := ((stIdx / cfg.NUM_SPATIAL_CROPS : ℕ) : ℤ)
    let spatial : ℤ :=
      if 1 < cfg.NUM_SPATIAL_CROPS then ((stIdx % cfg.NUM_SPATIAL_CROPS : ℕ) : ℤ)
      else 1
    let scales : ℤ × ℤ × ℤ :=
      if 1 < cfg.NUM_SPATIAL_CROPS then
        (cfg.TEST_CROP_SIZE, cfg.TEST_CROP_SIZE, cfg.TEST_CROP_SIZE)
      else
        (cfg.TRAIN_JITTER_SCALES.1, cfg.TRAIN_JITTER_SCALES.1, cfg.TEST_CROP_SIZE)
    if scales.1 = scales.2.1 then
      .ok ⟨temporal, spatial, scales.1, scales.2.1, scales.2.2⟩
    else
      .error "assert failed: min_scale and max_scale are expected to be the same"

/-- A tensor modelled by its four-dimensional shape. -/
structure Tensor4 where
  d0 : ℤ
  d1 : ℤ
  d2 : ℤ
  d3 : ℤ
deriving DecidableEq, Repr

/-- Modelled from the spec: `utils.tensor_normalize` (repository code not
under `src/`) performs per-channel mean subtraction and standard-deviation
division; at the shape level it leaves the tensor unchanged (spec §4.4
step 1). -/
def tensor_normalize (t : Tensor4) : Tensor4 := t

/-- `frames.permute(3, 0, 1, 2)`: reorder axes from
(frames, height, width, channels) to (channels, frames, height, width). -/
def permute3012 (t : Tensor4) : Tensor4 :=
  ⟨t.d3, t.d0, t.d1, t.d2⟩

/-- Modelled from the spec: `utils.spatial_sampling` (repository code not
under `src/`) produces a scaled-and-cropped tensor of fixed spatial size
`crop_size × crop_size`, preserving the channel and frame dimensions
(spec §4.4 step 3). -/
def spatial_sampling (t : Tensor4) (spatial_idx min_scale max_scale crop_size : ℤ) : Tensor4 :=
  ⟨t.d0, t.d1, crop_size, crop_size⟩

/-- Modelled from the spec: `utils.pack_pathway_output` (repository code not
under `src/`) splits or duplicates the final clip tensor into one or more
pathway tensors per configuration (spec §4.4 step 4); at the shape level,
one copy per configured pathway. -/
def pack_pathway_output (cfg : Cfg) (t : Tensor4) : List Tensor4 :=
  List.replicate cfg.numPathways t

/-- The four-tuple `__getitem__` returns on success:
`(frames, label, index, {})`. -/
structure GetItemResult where
  frames : List Tensor4
  label : ℤ
  index : ℕ
  meta : List (String × String)
deriving DecidableEq, Repr

/-- The exceptions that can escape `__getitem__`. -/
inductive GetItemError where
  /-- `RuntimeError("Failed to fetch video after N retries.")` raised when
  the `for` loop exhausts its `range(self._num_retries)` iterations. -/
  | exhausted (retries : ℕ)
  /-- The `IndexError` raised by `str.format` in the frame-sequence `except`
  handler (lines 239–242), whose template has two replacement fields but
  receives a single argument. -/
  | formatIndexError
  /-- An `AssertionError` escaping the test-mode sampling-parameter branch. -/
  | assertionError
deriving DecidableEq, Repr

/-- The external collaborators of `__getitem__`, abstracted as oracles keyed
by the attempt counter `i_try` (spec §1: decoder, container opener,
filesystem, and random source are out of scope).  `decodeSeq`/`decodeVid`
return the raw (frames, height, width, channels) tensor or `none`; their
remaining Python arguments (sampling rate, target fps, backend, …) do not
affect the dataset logic and are absorbed into the oracle. -/
structure World where
  /-- The `glob.glob` call on the tar-handler pattern at a given attempt. -/
  glob : ℕ → String → List String
  /-- `container.get_video_container(path, ...)`: `true` when a container
  handle is obtained, `false` when the call raises. -/
  openContainer : ℕ → String → Bool
  /-- `decoder.decode_seq(tar_handler, sampling_rate, frame_list, meta, num_frames)`. -/
  decodeSeq : ℕ → String → List String → Option Tensor4
  /-- `decoder.decode(video_container, sampling_rate, num_frames, ...)`. -/
  decodeVid : ℕ → String → Option Tensor4
  /-- The stream of values drawn from the global random source; the `k`-th
  `random.randint` call consumes `rng k`. -/
  rng : ℕ → ℕ

/-- The tail of a successful attempt (lines 331–350): normalize, permute,
spatially sample, read the label of the current (possibly substituted)
index, pack pathways, and return the four-tuple with empty metadata. -/
def successResult (ds : Kinetics) (sp : SamplingParams) (raw : Tensor4) (index : ℕ) :
    GetItemResult :=
  let f1 := tensor_normalize raw
  let f2 := permute3012 f1
  let f3 := spatial_sampling f2 sp.spatial sp.minScale sp.maxScale sp.cropSize
  let label := ds.labels.getD index 0
  ⟨pack_pathway_output ds.cfg f3, label, index, []⟩

/-- Outcome of one iteration of the retry loop. -/
inductive AttemptResult where
  /-- The `return frames, label, index, {}` statement was reached. -/
  | success (r : GetItemResult)
  /-- A `continue` path: the failure was logged and the loop retries. -/
  | softFail
  /-- An exception escaped the iteration (and hence `__getitem__`). -/
  | crash (e : GetItemError)
deriving DecidableEq, Repr

/-- The frame-sequence `try` block (lines 228–237): `glob` the frame files
and raise when the discovered count mismatches the `num_frames` entry of
`_video_meta[index]` (a missing key is a `KeyError`, equally caught) or when
fewer than 5 frames are present. -/
def seqOpenFails (ds : Kinetics) (w : World) (i_try index : ℕ) : Bool :=
  let tar := ds.path_to_videos.getD index ""
  let frame_list := w.glob i_try (tar ++ "_*.png")
  match (ds.video_meta.getD index ⟨none⟩).num_frames with
  | none => true
  | some nf => decide ((frame_list.length : ℤ) ≠ nf) || decide (frame_list.length < 5)

/-- One iteration of the retry loop of `__getitem__` (lines 226–350),
without the index-substitution step (which is identical in all three
`continue` paths and is performed by the loop). -/
def attempt (ds : Kinetics) (w : World) (sp : SamplingParams) (i_try index : ℕ) :
    AttemptResult :=
  if ds.cfg.USE_FRAME_SEQUENCES then
    let tar := ds.path_to_videos.getD index ""
    let frame_list := w.glob i_try (tar ++ "_*.png")
    if seqOpenFails ds w i_try index then
      -- The handler of the `except` branch formats a log template holding
      -- two replacement fields but passes a single argument to `str.format`,
      -- which therefore raises `IndexError` out of `__getitem__`.
      if pyFormatOk 2 1 then .softFail else .crash .formatIndexError
    else
      match w.decodeSeq i_try tar frame_list with
      | none => .softFail
      | some raw => .success (successResult ds sp raw index)
  else
    let path := ds.path_to_videos.getD index ""
    if w.openContainer i_try path then
      match w.decodeVid i_try path with
      | none => .softFail
      | some raw => .success (successResult ds sp raw index)
    else
      .softFail

/-- The `for i_try in range(self._num_retries)` loop (lines 225–356):
`remaining` is the number of iterations left, `i_try` the current attempt
number, `index` the current (possibly substituted) index, and `draws` the
number of random draws consumed so far.  On a soft failure outside test
mode with `i_try > num_retries // 2`, the index is replaced by
`random.randint(0, len(self._path_to_videos) - 1)`; exhausting the range
raises the `RuntimeError` of the `for`/`else` clause. -/
def getitemLoop (ds : Kinetics) (w : World) (sp : SamplingParams) :
    (remaining i_try index draws : ℕ) → Except GetItemError GetItemResult
  | 0, _, _, _ => .error (.exhausted ds.num_retries)
  | remaining + 1, i_try, index, draws =>
    match attempt ds w sp i_try index with
    | .success r => .ok r
    | .crash e => .error e
    | .softFail =>
      if ds.mode ≠ Mode.test ∧ ds.num_retries / 2 < i_try then
        getitemLoop ds w sp remaining (i_try + 1)
          (pyRandint 0 (ds.path_to_videos.length - 1) (w.rng draws)) (draws + 1)
      else
        getitemLoop ds w sp remaining (i_try + 1) index draws

/-- The result component of `Kinetics.__getitem__(index)` (with the optional
short-cycle index of the tuple form passed separately): resolve the sampling
parameters from `_spatial_temporal_idx[index]`, then run the retry loop. -/
def Kinetics.getitemResult (ds : Kinetics) (w : World) (index : ℕ)
    (short_cycle_idx : Option ℕ) : Except GetItemError GetItemResult :=
  match resolveParams ds.cfg ds.mode (ds.spatial_temporal_idx.getD index 0) short_cycle_idx with
  | .error _ => .error .assertionError
  | .ok sp => getitemLoop ds w sp ds.num_retries 0 index 0

/-- `Kinetics.__getitem__` together with the dataset state after the call:
the method assigns only to local variables (`index`, `frames`, `label`,
`tar_handler`, `video_container`, …) and never to the dataset attributes
built by `_construct_loader`, so the post-call state is the input state. -/
def Kinetics.getitem (ds : Kinetics) (w : World) (index : ℕ)
    (short_cycle_idx : Option ℕ) : Except GetItemError GetItemResult × Kinetics :=
  (ds.getitemResult w index short_cycle_idx, ds)

/-! ### Concrete fixtures

A frame-sequence configuration with the multigrid short cycle disabled
(`DEFAULT_S = 0`), and worlds whose open/decode collaborators fail. -/

/-- A frame-sequence configuration (`USE_FRAME_SEQUENCES` on). -/
def cfgSeq : Cfg where
  USE_FRAME_SEQUENCES := true
  PATH_ROOT := ""
  TRAIN_JITTER_SCALES := (256, 320)
  TRAIN_CROP_SIZE := 224
  TEST_CROP_SIZE := 256
  NUM_SPATIAL_CROPS := 3
  SHORT_CYCLE_FACTORS := (1/2, 3/4)
  DEFAULT_S := 0
  NUM_FRAMES := 8
  numPathways := 1

/-- A train-mode frame-sequence dataset with a single manifest entry that
declares 10 frames. -/
def dsSeqTrain : Kinetics :=
  ⟨.train, cfgSeq, 10, ["clips/a"], [3], [0], [⟨some 10⟩]⟩

/-- The same dataset in test mode. -/
def dsSeqTest : Kinetics :=
  ⟨.test, cfgSeq, 10, ["clips/a"], [3], [0], [⟨some 10⟩]⟩

/-- A world in which every open and every decode fails: `glob` discovers no
frame files, the container opener raises, and both decoders return `None`. -/
def wFail : World where
  glob := fun _ _ => []
  openContainer := fun _ _ => false
  decodeSeq := fun _ _ _ => none
  decodeVid := fun _ _ => none
  rng := fun _ => 0

/-- A world whose `glob` discovers exactly four frame files. -/
def wFour : World where
  glob := fun _ _ => ["a_1.png", "a_2.png", "a_3.png", "a_4.png"]
  openContainer := fun _ _ => false
  decodeSeq := fun _ _ _ => none
  decodeVid := fun _ _ => none
  rng := fun _ => 0

/-- A train-mode frame-sequence dataset whose single entry declares 4 frames
(matching `wFour`, but below the 5-frame minimum). -/
def dsSeqShort : Kinetics :=
  ⟨.train, cfgSeq, 10, ["clips/b"], [1], [0], [⟨some 4⟩]⟩

/-- The raw tensor obtained by the first attempt (`i_try = 0`) of the retry
loop, when both the open stage and the decode stage succeed (`none` when
that attempt fails at either stage). -/
def firstDecode (ds : Kinetics) (w : World) (index : ℕ) : Option Tensor4 :=
  if ds.cfg.USE_FRAME_SEQUENCES then
    if seqOpenFails ds w 0 index then none
    else w.decodeSeq 0 (ds.path_to_videos.getD index "")
           (w.glob 0 (ds.path_to_videos.getD index "" ++ "_*.png"))
  else
    if w.openContainer 0 (ds.path_to_videos.getD index "") then
      w.decodeVid 0 (ds.path_to_videos.getD index "")
    else none

/-- A raw-video configuration (`USE_FRAME_SEQUENCES` off, multigrid short
cycle disabled). -/
def cfgVid : Cfg where
  USE_FRAME_SEQUENCES := false
  PATH_ROOT := ""
  TRAIN_JITTER_SCALES := (256, 320)
  TRAIN_CROP_SIZE := 224
  TEST_CROP_SIZE := 256
  NUM_SPATIAL_CROPS := 3
  SHORT_CYCLE_FACTORS := (1/2, 3/4)
  DEFAULT_S := 0
  NUM_FRAMES := 8
  numPathways := 1

/-- The same raw-video configuration with the multigrid default scale
enabled (`DEFAULT_S = 224`). -/
def cfgMG : Cfg where
  USE_FRAME_SEQUENCES := false
  PATH_ROOT := ""
  TRAIN_JITTER_SCALES := (256, 320)
  TRAIN_CROP_SIZE := 224
  TEST_CROP_SIZE := 256
  NUM_SPATIAL_CROPS := 3
  SHORT_CYCLE_FACTORS := (1/2, 3/4)
  DEFAULT_S := 224
  NUM_FRAMES := 8
  numPathways := 1

/-- The train-mode video dataset `Kinetics.init cfgVid .train 10
[["a.mp4", "3"]]` constructs. -/
def dsVid : Kinetics :=
  ⟨.train, cfgVid, 10, ["a.mp4"], [3], [0], [⟨none⟩]⟩

/-- The test-mode video dataset `Kinetics.init cfgVid .test 10
[["a.mp4", "3"]]` constructs. -/
def dsVidTest : Kinetics :=
  ⟨.test, cfgVid, 10, ["a.mp4"], [3], [0], [⟨none⟩]⟩

/-- A world whose container opener always succeeds and whose video decoder
returns an 8×128×171×3 (frames, height, width, channels) tensor on every
attempt. -/
def wOk : World where
  glob := fun _ _ => []
  openContainer := fun _ _ => true
  decodeSeq := fun _ _ _ => none
  decodeVid := fun _ _ => some ⟨8, 128, 171, 3⟩
  rng := fun _ => 0

/-- Claim C1: in train mode with every open attempt failing, `__getitem__`
is claimed to perform exactly `num_retries` attempts and then raise an
exhaustion error.  On a frame-sequence dataset the code instead raises the
`IndexError` of the malformed `str.format` call in the `except` handler
during the very first attempt: the call neither reaches `num_retries`
attempts nor raises the exhaustion `RuntimeError`. -/
theorem getitem_frameseq_train_openfail_crashes :
    dsSeqTrain.getitem wFail 0 none = (.error .formatIndexError, dsSeqTrain) ∧
      (GetItemError.formatIndexError ≠ .exhausted dsSeqTrain.num_retries) :=
  ⟨rfl, by decide⟩

/-- Claim C2: in test mode with every open attempt failing, `__getitem__`
is claimed to retry the same index `num_retries` times and then raise an
exhaustion error.  On a frame-sequence dataset the code instead raises the
`IndexError` of the malformed `str.format` call during the very first
attempt. -/
theorem getitem_frameseq_test_openfail_crashes :
    dsSeqTest.getitem wFail 0 none = (.error .formatIndexError, dsSeqTest) ∧
      (GetItemError.formatIndexError ≠ .exhausted dsSeqTest.num_retries) :=
  ⟨rfl, by decide⟩

/-- Claim C3: a frame-sequence clip whose discovered frame count mismatches
its declared count (4 files vs 10 declared), and one with fewer than 5
frames (4 files, 4 declared), are claimed to be soft failures that are
logged and enter the retry path.  In both cases the code instead propagates
the `IndexError` raised by the two-field/one-argument `str.format` call in
the `except` handler out of `__getitem__`. -/
theorem getitem_frameseq_mismatch_or_short_crashes :
    dsSeqTrain.getitem wFour 0 none = (.error .formatIndexError, dsSeqTrain) ∧
      dsSeqShort.getitem wFour 0 none = (.error .formatIndexError, dsSeqShort) :=
  ⟨rfl, rfl⟩

/-! ### Sampling-parameter resolver -/

/-- Helper: the test branch of the resolver always passes its assertion and
computes the deterministic sampling parameters of lines 190–214. -/
theorem resolveParams_test_spec (cfg : Cfg) (stIdx : ℕ) (sci : Option ℕ) :
    resolveParams cfg .test stIdx sci = .ok
      ⟨((stIdx / cfg.NUM_SPATIAL_CROPS : ℕ) : ℤ),
       (if 1 < cfg.NUM_SPATIAL_CROPS then ((stIdx % cfg.NUM_SPATIAL_CROPS : ℕ) : ℤ) else 1),
       (if 1 < cfg.NUM_SPATIAL_CROPS then cfg.TEST_CROP_SIZE else cfg.TRAIN_JITTER_SCALES.1),
       (if 1 < cfg.NUM_SPATIAL_CROPS then cfg.TEST_CROP_SIZE else cfg.TRAIN_JITTER_SCALES.1),
       cfg.TEST_CROP_SIZE⟩ := by
  unfold resolveParams
  by_cases hc : 1 < cfg.NUM_SPATIAL_CROPS
  · simp [if_pos hc]
  · simp [if_neg hc]

/-- Claim C6: in test mode, the resolved parameters satisfy
`temporal_sample_index = spatial_temporal_index // num_spatial_crops`,
`spatial_sample_index = spatial_temporal_index % num_spatial_crops` when
`num_spatial_crops > 1` (and `1` when `num_spatial_crops == 1`), and the
`min_scale == max_scale` assertion holds in both branches. -/
theorem test_mode_sampling_params (cfg : Cfg) (stIdx : ℕ) (sci : Option ℕ)
    (h : 0 < cfg.NUM_SPATIAL_CROPS) :
    ∃ p, resolveParams cfg .test stIdx sci = .ok p ∧
      p.temporal = ((stIdx / cfg.NUM_SPATIAL_CROPS : ℕ) : ℤ) ∧
      p.spatial = (if 1 < cfg.NUM_SPATIAL_CROPS
          then ((stIdx % cfg.NUM_SPATIAL_CROPS : ℕ) : ℤ) else 1) ∧
      p.minScale = p.maxScale :=
  ⟨_, resolveParams_test_spec cfg stIdx sci, rfl, rfl, rfl⟩

/-- Witness for claim C6 at a concrete configuration with three spatial
crops and `spatial_temporal_index = 7`. -/
theorem test_mode_sampling_params_witness :
    ∃ p, resolveParams cfgSeq .test 7 none = .ok p ∧
      p.temporal = ((7 / cfgSeq.NUM_SPATIAL_CROPS : ℕ) : ℤ) ∧
      p.spatial = (if 1 < cfgSeq.NUM_SPATIAL_CROPS
          then ((7 % cfgSeq.NUM_SPATIAL_CROPS : ℕ) : ℤ) else 1) ∧
      p.minScale = p.maxScale :=
  test_mode_sampling_params cfgSeq 7 none (by decide)

/-- Claim C8: in train/val mode, a supplied short-cycle index in `{0, 1}`
recomputes `crop_size = round(SHORT_CYCLE_FACTORS[idx] * DEFAULT_S)`; when
`DEFAULT_S > 0` the minimum scale is rescaled proportionally to the (new)
crop size, `min_scale = round(min_scale * crop_size / DEFAULT_S)`; otherwise
the crop size and jitter scales come unchanged from the configuration. -/
theorem trainval_crop_and_scale (cfg : Cfg) (stIdx : ℕ) (sci : Option ℕ) (mode : Mode)
    (hm : mode = .train ∨ mode = .val) :
    ∃ p, resolveParams cfg mode stIdx sci = .ok p ∧
      p.cropSize = (match sci with
        | some 0 => pyRound (cfg.SHORT_CYCLE_FACTORS.1 * (cfg.DEFAULT_S : ℚ))
        | some 1 => pyRound (cfg.SHORT_CYCLE_FACTORS.2 * (cfg.DEFAULT_S : ℚ))
        | _ => cfg.TRAIN_CROP_SIZE) ∧
      p.minScale = (if 0 < cfg.DEFAULT_S
        then pyRound ((cfg.TRAIN_JITTER_SCALES.1 : ℚ) * (p.cropSize : ℚ) / (cfg.DEFAULT_S : ℚ))
        else cfg.TRAIN_JITTER_SCALES.1) ∧
      p.maxScale = cfg.TRAIN_JITTER_SCALES.2 ∧
      p.temporal = -1 ∧ p.spatial = -1 := by
  obtain rfl | rfl := hm <;>
    rcases sci with _ | (_ | (_ | n)) <;>
    exact ⟨_, rfl, rfl, rfl, rfl, rfl, rfl⟩

/-- Witness for claim C8 at a concrete multigrid configuration
(`DEFAULT_S = 224`) in train mode with short-cycle index `0`. -/
theorem trainval_crop_and_scale_witness :
    ∃ p, resolveParams cfgMG .train 0 (some 0) = .ok p ∧
      p.cropSize = (match (some 0 : Option ℕ) with
        | some 0 => pyRound (cfgMG.SHORT_CYCLE_FACTORS.1 * (cfgMG.DEFAULT_S : ℚ))
        | some 1 => pyRound (cfgMG.SHORT_CYCLE_FACTORS.2 * (cfgMG.DEFAULT_S : ℚ))
        | _ => cfgMG.TRAIN_CROP_SIZE) ∧
      p.minScale = (if 0 < cfgMG.DEFAULT_S
        then pyRound ((cfgMG.TRAIN_JITTER_SCALES.1 : ℚ) * (p.cropSize : ℚ) / (cfgMG.DEFAULT_S : ℚ))
        else cfgMG.TRAIN_JITTER_SCALES.1) ∧
      p.maxScale = cfgMG.TRAIN_JITTER_SCALES.2 ∧
      p.temporal = -1 ∧ p.spatial = -1 :=
  trainval_crop_and_scale cfgMG 0 (some 0) .train (Or.inl rfl)

/-! ### Manifest loader -/

/-- Helper: when every manifest line parses, `loadLines` succeeds and adds
`num_clips` entries per line to each sequence; every appended
spatial-temporal index is below `num_clips`. -/
theorem loadLines_ok_spec (cfg : Cfg) (nc : ℕ) (lines : List (List String)) :
    ∀ st : LoaderState, (∀ l ∈ lines, ∃ p, parseLine cfg l = .ok p) →
      ∃ st', loadLines cfg nc lines st = .ok st' ∧
        st'.paths.length = st.paths.length + lines.length * nc ∧
        (∀ x ∈ st'.stIdx, x ∈ st.stIdx ∨ x < nc) := by
  induction lines with
  | nil =>
    intro st _
    exact ⟨st, rfl, by simp, fun x hx => Or.inl hx⟩
  | cons l rest ih =>
    intro st hok
    obtain ⟨p, hp⟩ := hok l (List.mem_cons_self l rest)
    obtain ⟨st', h1, h2, h3⟩ :=
      ih (addLine cfg nc st p) (fun x hx => hok x (List.mem_cons_of_mem _ hx))
    refine ⟨st', ?_, ?_, ?_⟩
    · simp only [loadLines, hp]
      exact h1
    · rw [h2]
      simp only [addLine, List.length_append, List.length_replicate, List.length_cons]
      ring
    · intro x hx
      rcases h3 x hx with hmem | hlt
      · simp only [addLine, List.mem_append, List.mem_range] at hmem
        exact hmem
      · exact Or.inr hlt

/-- Helper: a successful `loadLines` run only appends spatial-temporal
indices below `num_clips`. -/
theorem loadLines_stIdx_lt (cfg : Cfg) (nc : ℕ) (lines : List (List String)) :
    ∀ st st' : LoaderState, loadLines cfg nc lines st = .ok st' →
      ∀ x ∈ st'.stIdx, x ∈ st.stIdx ∨ x < nc := by
  induction lines with
  | nil =>
    intro st st' h x hx
    cases h
    exact Or.inl hx
  | cons l rest ih =>
    intro st st' h x hx
    cases hp : parseLine cfg l with
    | error e =>
      simp only [loadLines, hp] at h
      exact (Except.noConfusion h)
    | ok p =>
      simp only [loadLines, hp] at h
      rcases ih (addLine cfg nc st p) st' h x hx with hmem | hlt
      · simp only [addLine, List.mem_append, List.mem_range] at hmem
        exact hmem
      · exact Or.inr hlt

/-- Helper: inversion of a successful construction. -/
theorem init_ok_elim (cfg : Cfg) (mode : Mode) (nr : ℕ) (manifest : List (List String))
    (ds : Kinetics) (h : Kinetics.init cfg mode nr manifest = .ok ds) :
    ∃ st, loadLines cfg (numClips mode) manifest ⟨[], [], [], []⟩ = .ok st ∧
      0 < st.paths.length ∧
      ds = ⟨mode, cfg, nr, st.paths, st.labels, st.stIdx, st.meta⟩ := by
  unfold Kinetics.init at h
  cases hl : loadLines cfg (numClips mode) manifest ⟨[], [], [], []⟩ with
  | error e => rw [hl] at h; cases h
  | ok st =>
    rw [hl] at h
    dsimp only at h
    by_cases hp : 0 < st.paths.length
    · rw [if_pos hp] at h
      cases h
      exact ⟨st, rfl, hp, rfl⟩
    · rw [if_neg hp] at h
      cases h

/-- Helper: every position of an all-zero list (and every out-of-range
default) reads as zero. -/
theorem getD_zero_of_all_zero (l : List ℕ) (h : ∀ x ∈ l, x = 0) (i : ℕ) :
    l.getD i 0 = 0 := by
  induction l generalizing i with
  | nil => simp
  | cons a t ih =>
    cases i with
    | zero => simpa using h a (by simp)
    | succ j => simpa using ih (fun x hx => h x (by simp [hx])) j

/-- Claim C4: for every valid manifest with `K` non-empty lines (each line
parses) and configured clip-replica count `R = numClips mode`, construction
succeeds with exactly `K * R` Dataset Index entries, `R = 1` in train, val,
and test, and `__len__` returns that value. -/
theorem init_length (cfg : Cfg) (mode : Mode) (nr : ℕ) (manifest : List (List String))
    (hne : manifest ≠ [])
    (hok : ∀ l ∈ manifest, ∃ p, parseLine cfg l = .ok p) :
    ∃ ds, Kinetics.init cfg mode nr manifest = .ok ds ∧
      ds.len = manifest.length * numClips mode ∧ numClips mode = 1 := by
  have hnc : numClips mode = 1 := by cases mode <;> rfl
  obtain ⟨st', h1, h2, _⟩ := loadLines_ok_spec cfg (numClips mode) manifest ⟨[], [], [], []⟩ hok
  have hlen : st'.paths.length = manifest.length * numClips mode := by simpa using h2
  have hpos : 0 < st'.paths.length := by
    rw [hlen, hnc, Nat.mul_one]
    exact List.length_pos.mpr hne
  refine ⟨⟨mode, cfg, nr, st'.paths, st'.labels, st'.stIdx, st'.meta⟩, ?_, ?_, hnc⟩
  · unfold Kinetics.init
    rw [h1]
    dsimp only
    rw [if_pos hpos]
  · simpa [Kinetics.len] using hlen

/-- Witness for claim C4: a two-line video manifest in train mode. -/
theorem init_length_witness :
    ∃ ds, Kinetics.init cfgVid .train 10 [["a.mp4", "3"], ["b.mp4", "7"]] = .ok ds ∧
      ds.len = [["a.mp4", "3"], ["b.mp4", "7"]].length * numClips .train ∧
      numClips .train = 1 :=
  init_length cfgVid .train 10 [["a.mp4", "3"], ["b.mp4", "7"]] (by simp)
    (by
      intro l hl
      simp only [List.mem_cons, List.not_mem_nil, or_false] at hl
      rcases hl with rfl | rfl
      · exact ⟨_, rfl⟩
      · exact ⟨_, rfl⟩)

/-- Claim C5: constructing from a manifest with zero lines fails with the
configuration error of the `assert len(self._path_to_videos) > 0` guard,
and construction never completes with an empty Dataset Index. -/
theorem init_fails_on_empty (cfg : Cfg) (mode : Mode) (nr : ℕ) :
    Kinetics.init cfg mode nr [] = .error .emptySplit ∧
      ∀ (manifest : List (List String)) (ds : Kinetics),
        Kinetics.init cfg mode nr manifest = .ok ds → 0 < ds.len := by
  refine ⟨rfl, fun manifest ds h => ?_⟩
  obtain ⟨st, _, hpos, rfl⟩ := init_ok_elim cfg mode nr manifest ds h
  simpa [Kinetics.len] using hpos

/-- Witness for claim C5: the empty manifest fails, and a constructed
one-line dataset has positive length. -/
theorem init_fails_on_empty_witness :
    Kinetics.init cfgVid .train 10 [] = .error .emptySplit ∧ 0 < dsVid.len :=
  ⟨(init_fails_on_empty cfgVid .train 10).1,
   (init_fails_on_empty cfgVid .train 10).2 [["a.mp4", "3"]] dsVid rfl⟩

/-- Claim C10: construction uses a clip-replica count of `1` in every mode,
so every constructed spatial-temporal index is `0`; consequently, in test
mode the resolver — invoked on `_spatial_temporal_idx[index]` exactly as
`__getitem__` invokes it — yields `temporal_sample_index = 0` and
`spatial_sample_index = 0` when `NUM_SPATIAL_CROPS > 1` (or `1` when it is
`1`). -/
theorem init_stIdx_zero_test_params (cfg : Cfg) (mode : Mode) (nr : ℕ)
    (manifest : List (List String)) (ds : Kinetics)
    (hinit : Kinetics.init cfg mode nr manifest = .ok ds)
    (hc : 0 < cfg.NUM_SPATIAL_CROPS) :
    numClips mode = 1 ∧
      (∀ x ∈ ds.spatial_temporal_idx, x = 0) ∧
      ∀ (index : ℕ) (sci : Option ℕ), ∃ p,
        resolveParams cfg .test (ds.spatial_temporal_idx.getD index 0) sci = .ok p ∧
        p.temporal = 0 ∧
        p.spatial = (if 1 < cfg.NUM_SPATIAL_CROPS then 0 else 1) := by
  have hnc : numClips mode = 1 := by cases mode <;> rfl
  obtain ⟨st, hl, hpos, rfl⟩ := init_ok_elim cfg mode nr manifest ds hinit
  have hall : ∀ x ∈ st.stIdx, x = 0 := by
    intro x hx
    rcases loadLines_stIdx_lt cfg (numClips mode) manifest _ _ hl x hx with hmem | hlt
    · simp at hmem
    · omega
  refine ⟨hnc, hall, fun index sci => ?_⟩
  rw [show (⟨mode, cfg, nr, st.paths, st.labels, st.stIdx, st.meta⟩ : Kinetics).spatial_temporal_idx
        = st.stIdx from rfl,
      getD_zero_of_all_zero st.stIdx hall index]
  refine ⟨_, resolveParams_test_spec cfg 0 sci, by simp, ?_⟩
  by_cases h1 : 1 < cfg.NUM_SPATIAL_CROPS <;> simp [h1]

/-- Witness for claim C10: the constructed test-mode video dataset. -/
theorem init_stIdx_zero_test_params_witness :
    numClips .test = 1 ∧
      (∀ x ∈ dsVidTest.spatial_temporal_idx, x = 0) ∧
      ∀ (index : ℕ) (sci : Option ℕ), ∃ p,
        resolveParams cfgVid .test (dsVidTest.spatial_temporal_idx.getD index 0) sci = .ok p ∧
        p.temporal = 0 ∧
        p.spatial = (if 1 < cfgVid.NUM_SPATIAL_CROPS then 0 else 1) :=
  init_stIdx_zero_test_params cfgVid .test 10 [["a.mp4", "3"]] dsVidTest rfl (by decide)

/-! ### Decode-retry engine: successful first attempt, frame effect -/

/-- Helper: when the open and decode stages of the first attempt succeed with raw
tensor `raw`, the first loop iteration returns the success result. -/
theorem attempt_of_firstDecode (ds : Kinetics) (w : World) (sp : SamplingParams)
    (index : ℕ) (raw : Tensor4) (hdec : firstDecode ds w index = some raw) :
    attempt ds w sp 0 index = .success (successResult ds sp raw index) := by
  unfold firstDecode at hdec
  unfold attempt
  by_cases hseq : ds.cfg.USE_FRAME_SEQUENCES
  · rw [if_pos hseq] at hdec ⊢
    by_cases hop : seqOpenFails ds w 0 index
    · rw [if_pos hop] at hdec
      cases hdec
    · rw [if_neg hop] at hdec
      rw [if_neg hop, hdec]
  · rw [if_neg hseq] at hdec ⊢
    by_cases hop : w.openContainer 0 (ds.path_to_videos.getD index "") = true
    · rw [if_pos hop] at hdec
      rw [if_pos hop, hdec]
    · rw [if_neg hop] at hdec
      cases hdec

/-- Claim C7: when the open and decode stages succeed on the first attempt
with a raw (frames, height, width, channels) tensor honoring the requested
`NUM_FRAMES`, `__getitem__` returns the four-tuple of the pathway-packed
transformed tensor(s) of shape (channels, `NUM_FRAMES`, `crop_size`,
`crop_size`), the manifest label of the returned effective index, the
effective index itself (here the requested one), and an empty metadata
mapping. -/
theorem getitem_first_attempt_success (ds : Kinetics) (w : World) (index : ℕ)
    (sci : Option ℕ) (sp : SamplingParams) (raw : Tensor4)
    (hr : 0 < ds.num_retries)
    (hsp : resolveParams ds.cfg ds.mode (ds.spatial_temporal_idx.getD index 0) sci = .ok sp)
    (hdec : firstDecode ds w index = some raw)
    (hnf : raw.d0 = ds.cfg.NUM_FRAMES) :
    (ds.getitem w index sci).1 = .ok
      ⟨List.replicate ds.cfg.numPathways ⟨raw.d3, ds.cfg.NUM_FRAMES, sp.cropSize, sp.cropSize⟩,
       ds.labels.getD index 0, index, []⟩ := by
  have hatt := attempt_of_firstDecode ds w sp index raw hdec
  obtain ⟨n, hn⟩ : ∃ n, ds.num_retries = n + 1 := ⟨ds.num_retries - 1, by omega⟩
  show ds.getitemResult w index sci = _
  unfold Kinetics.getitemResult
  rw [hsp]
  dsimp only
  rw [hn]
  simp only [getitemLoop, hatt]
  simp only [successResult, tensor_normalize, permute3012, spatial_sampling,
    pack_pathway_output, ← hnf]

/-- Witness for claim C7: the one-entry train-mode video dataset with a
decoder that succeeds immediately on an 8×128×171×3 raw tensor. -/
theorem getitem_first_attempt_success_witness :
    (dsVid.getitem wOk 0 none).1 = .ok ⟨[⟨3, 8, 224, 224⟩], 3, 0, []⟩ :=
  getitem_first_attempt_success dsVid wOk 0 none ⟨-1, -1, 256, 320, 224⟩ ⟨8, 128, 171, 3⟩
    (by decide) rfl rfl rfl

/-- Claim C9: every `__getitem__` call — successful, substituting, or
exhausting its retries — leaves the Dataset Index unchanged: the clip
paths, labels, and spatial-temporal indices built at construction are not
modified, and `__len__` returns the same value after the call. -/
theorem getitem_preserves_dataset (ds : Kinetics) (w : World) (index : ℕ)
    (sci : Option ℕ) :
    (ds.getitem w index sci).2.path_to_videos = ds.path_to_videos ∧
      (ds.getitem w index sci).2.labels = ds.labels ∧
      (ds.getitem w index sci).2.spatial_temporal_idx = ds.spatial_temporal_idx ∧
      (ds.getitem w index sci).2.len = ds.len :=
  ⟨rfl, rfl, rfl, rfl⟩
